import Mathlib

/-!
Verification development for the ORD scraper (`src/ORD_SCAPER/ord_scraper.py.py`).

The Python program is embedded shallowly:
* pure string manipulation is reimplemented over `List Char` with Python
  (ASCII) semantics;
* the extractor `extract_reaction_data` becomes a pure Lean function over a
  structured `Reaction` value (the decoded protobuf object, whose fields are
  modelled exactly as the source accesses them);
* the poller `fetch_query_result` becomes a function over the finite sequence
  of HTTP responses the service produces for a task, threading the elapsed
  wall-clock seconds explicitly (each response records how long its GET took;
  an exhausted response list models the remaining poll window elapsing with no
  further terminal response, which the source surfaces as its `TimeoutError`);
* the orchestrator `scrape_ord_advanced` becomes a fold over the dataset list,
  with the network and the external `ord_schema` library abstracted as a
  `World` record supplying, for each call site, the outcome the source would
  observe there (the task token or raised error of `submit_query`, the HTTP
  responses seen by `fetch_query_result`, the decode outcome of
  `decode_reaction_proto`, and the `ReactionRole.Name` lookup).
-/

namespace OrdScraper

/-! ### Python string primitives (ASCII-faithful) -/

/-- Python `str.strip()`: remove leading and trailing whitespace. -/
def pyStrip (s : String) : String :=
  String.mk (((s.data.dropWhile Char.isWhitespace).reverse.dropWhile Char.isWhitespace).reverse)

/-- Python `str.lower()` restricted to ASCII letters (all inputs in this
development are ASCII). -/
def pyLower (s : String) : String :=
  String.mk (s.data.map Char.toLower)

/-- Python `str.replace("_", " ")` (single-character pattern, so per-character). -/
def pyUnderscoresToSpaces (s : String) : String :=
  String.mk (s.data.map (fun c => if c = '_' then ' ' else c))

/-- Test whether `needle` is an initial segment of `hay`. -/
def listStartsWith : List Char → List Char → Bool
  | [], _ => true
  | _ :: _, [] => false
  | a :: as, b :: bs => a = b && listStartsWith as bs

/-- Helper for substring search: does `needle` occur in the list? -/
def hasSubstrAux (needle : List Char) : List Char → Bool
  | [] => needle.isEmpty
  | c :: rest => listStartsWith needle (c :: rest) || hasSubstrAux needle rest

/-- Python `needle in hay` on strings: substring containment. -/
def containsSubstr (hay needle : String) : Bool :=
  hasSubstrAux needle.data hay.data

/-- Line 72: `"not ready" in resp.text.lower()`. -/
def containsNotReady (text : String) : Bool :=
  containsSubstr (pyLower text) "not ready"

/-- Python `"; ".join texts` (line 101). -/
def joinTexts : List String → String
  | [] => ""
  | [t] => t
  | t :: rest => t ++ "; " ++ joinTexts rest

/-! ### Constants (lines 14-17) -/

def API_BASE : String := "https://open-reaction-database.org/api"

def USER_AGENT : String := "ORD-Scraper-Advanced/3.0"

/-- Line 16: `CORE_CATEGORIES = {"base", "solvent", "amine", "aryl halide",
"metal", "ligand"}`.  The source uses a Python `set`, whose iteration order is
unspecified; we fix the order in which the literals appear in the source.
Every theorem below either does not depend on the iteration order or concerns
an input for which at most one category matches. -/
def CORE_CATEGORIES : List String :=
  ["base", "solvent", "amine", "aryl halide", "metal", "ligand"]

/-- Line 17: `REACTION_TIMEOUT_S = 90`. -/
def REACTION_TIMEOUT_S : Nat := 90

/-! ### Decoded record data model

Field-for-field image of the protobuf fields the source reads:
`rxn.reaction_id.value`, `rxn.inputs` (a map iterated by `.items()`, modelled
as an association list in iteration order), `rxn.outcomes`,
`outcome.reaction_product`, `component.identifiers`, `ident.value`,
`component.reaction_role`. -/

structure CompoundIdentifier where
  value : String
  deriving DecidableEq

structure ProductCompound where
  identifiers : List CompoundIdentifier
  deriving DecidableEq

structure ReactionOutcome where
  reaction_product : List ProductCompound
  deriving DecidableEq

structure Component where
  identifiers : List CompoundIdentifier
  reaction_role : Int
  deriving DecidableEq

structure ReactionInput where
  components : List Component
  deriving DecidableEq

structure ReactionId where
  value : String
  deriving DecidableEq

structure Reaction where
  reaction_id : ReactionId
  inputs : List (String × ReactionInput)
  outcomes : List ReactionOutcome
  deriving DecidableEq

/-- One entry of a category list: `{"value": text_id, "role": role_name}`
(lines 132-135). -/
structure CompData where
  value : String
  role : String
  deriving DecidableEq

/-- The `extracted_roles` dict: keys in insertion order, each bound to a list. -/
abbrev RolesMap := List (String × List CompData)

/-! ### Extractor (lines 95-162) -/

/-- Lines 95-101: join the non-empty identifier values with `"; "`. -/
def extract_identifiers (compound : Component) : String :=
  joinTexts ((compound.identifiers.map CompoundIdentifier.value).filter (fun v => !(v == "")))

/-- Lookup of `extracted_roles[k]` (insertion-ordered dict as association list). -/
def lookupCat : RolesMap → String → Option (List CompData)
  | [], _ => none
  | (k', vs) :: rest, k => if k' = k then some vs else lookupCat rest k

/-- Is `k` a key of the dict? -/
def hasKey : RolesMap → String → Bool
  | [], _ => false
  | (k', _) :: rest, k => k' == k || hasKey rest k

/-- Model of `extracted_roles[k].append(v)`, creating the key at the end on first use
(the combined effect of `dict[k].append` and `dict.setdefault(k, []).append`). -/
def appendAt : RolesMap → String → CompData → RolesMap
  | [], k, v => [(k, [v])]
  | (k', vs) :: rest, k, v =>
    if k' = k then (k', vs ++ [v]) :: rest else (k', vs) :: appendAt rest k v

/-- Line 117: `input_key.strip().lower().replace("_", " ")`. -/
def normalizeKey (input_key : String) : String :=
  pyUnderscoresToSpaces (pyLower (pyStrip input_key))

/-- Lines 138-147: try each core category in order, first substring match of
the normalized group name wins; otherwise `setdefault(normalized_key, [])`. -/
def classifyComponent (extracted_roles : RolesMap) (normalized_key : String)
    (comp_data : CompData) : RolesMap :=
  match CORE_CATEGORIES.find? (fun core_key => containsSubstr normalized_key core_key) with
  | some core_key => appendAt extracted_roles core_key comp_data
  | none => appendAt extracted_roles normalized_key comp_data

/-- Lines 119-147, body of the per-component loop.  `rn` is the external
`ReactionRole.Name` lookup; a failed lookup is replaced by `"UNKNOWN"`
(lines 126-130). -/
def processComponent (rn : Int → Option String) (normalized_key : String)
    (extracted_roles : RolesMap) (component : Component) : RolesMap :=
  let text_id := extract_identifiers component
  if text_id = "" then extracted_roles
  else
    classifyComponent extracted_roles normalized_key
      ⟨text_id, (rn component.reaction_role).getD "UNKNOWN"⟩

/-- Lines 116-147, body of the per-input loop. -/
def processInput (rn : Int → Option String) (extracted_roles : RolesMap)
    (p : String × ReactionInput) : RolesMap :=
  p.2.components.foldl (processComponent rn (normalizeKey p.1)) extracted_roles

/-- The three record shapes the program appends to its output list:
lines 149-154 (success), lines 158-162 (extractor failure), line 215
(dataset-level failure). -/
inductive OutRec where
  | extracted (dataset_id : String) (reaction_id : String)
      (components : RolesMap) (success : Bool)
  | extractError (dataset_id : String) (reaction_id : String) (error : String)
  | datasetError (dataset_id : String) (error : String)
  deriving DecidableEq

/-- The `"dataset_id"` entry, present in every record shape. -/
def OutRec.datasetIdOf : OutRec → String
  | .extracted ds _ _ _ => ds
  | .extractError ds _ _ => ds
  | .datasetError ds _ => ds

/-- The `"reaction_id"` entry, when the record shape has one. -/
def OutRec.reactionId? : OutRec → Option String
  | .extracted _ rid _ _ => some rid
  | .extractError _ rid _ => some rid
  | .datasetError _ _ => none

/-- The `"success"` entry, when the record shape has one. -/
def OutRec.successFlag : OutRec → Option Bool
  | .extracted _ _ _ s => some s
  | _ => none

/-- The `"components"` entry (empty dict for the failure shapes, which have
none). -/
def OutRec.componentsD : OutRec → RolesMap
  | .extracted _ _ m _ => m
  | _ => []

/-- Lines 103-154: the extractor.  The success flag is line 111-113
(`if rxn.outcomes and rxn.outcomes[0].reaction_product`); the dict starts
with all core keys bound to `[]` (line 107); then both loops run. -/
def extract_reaction_data (rn : Int → Option String) (rxn : Reaction)
    (dataset_id : String) : OutRec :=
  let init : RolesMap := CORE_CATEGORIES.map (fun k => (k, []))
  let outcome_successful : Bool :=
    match rxn.outcomes with
    | [] => false
    | o :: _ => !o.reaction_product.isEmpty
  let extracted_roles := rxn.inputs.foldl (processInput rn) init
  .extracted dataset_id rxn.reaction_id.value extracted_roles outcome_successful

/-- Lines 156-162: the record built in the extractor's `except` branch.  The
branch is reachable only through exceptions of the host language, which the
pure embedding cannot raise, so the record construction is embedded on its
own: `{dataset_id, reaction_id: rxn.reaction_id.value, error}`. -/
def extractFailureRecord (rxn : Reaction) (dataset_id : String) (e : String) : OutRec :=
  .extractError dataset_id rxn.reaction_id.value e

/-! ### Poller (lines 51-78) -/

/-- One element of the JSON array the service returns: the source only reads
`item.get("proto")` (line 203), so only that key is modelled. -/
structure Item where
  proto : Option String
  deriving DecidableEq

/-- One HTTP response observed by a poll attempt (after the transport layer's
own retries).  `text` is the body, `json` its parse as a JSON array (`none`
when `resp.json()` would raise `JSONDecodeError`), and `duration` the seconds
the GET took. -/
structure Response where
  status : Nat
  text : String
  json : Option (List Item)
  duration : Nat
  deriving DecidableEq

/-- How `fetch_query_result` ends: return of the item list (line 62 or 64),
`TimeoutError` (line 78), or the `HTTPError` of `raise_for_status` (line 76). -/
inductive PollOutcome where
  | ready (items : List Item)
  | timedOut (task_id : String)
  | requestError (status : Nat)
  deriving DecidableEq

/-- Lines 51-78: the poll loop.  `elapsed` is `time.time() - start_time` at
the top of the loop; each retry adds the GET's duration plus the 2-second
sleep.  An exhausted response list models no further response arriving inside
the poll window, which the loop surfaces as the line-78 `TimeoutError`. -/
def fetch_query_result (task_id : String) : List Response → Nat → PollOutcome
  | [], _ => .timedOut task_id
  | r :: rest, elapsed =>
    if REACTION_TIMEOUT_S ≤ elapsed then .timedOut task_id
    else if r.status = 200 then .ready (r.json.getD [])
    else if r.status = 202 then fetch_query_result task_id rest (elapsed + r.duration + 2)
    else if r.status = 400 ∧ containsNotReady r.text = true then
      fetch_query_result task_id rest (elapsed + r.duration + 2)
    else if 400 ≤ r.status ∧ r.status < 600 then .requestError r.status
    else fetch_query_result task_id rest (elapsed + r.duration)

/-! ### Orchestrator (lines 166-220) and CLI adjustment (lines 266-272) -/

/-- A dataset descriptor from `GET /datasets`: the source reads
`ds.get("dataset_id")` and `ds.get("num_reactions", 0)` (lines 186-187). -/
structure Dataset where
  dataset_id : String
  num_reactions : Nat
  deriving DecidableEq

/-- The environment of one run: the dataset list the initial fetch returned,
and for each call site of an effectful helper, the outcome the source would
observe there.  `submitResp` is the result of `submit_query` (task token, or
the message of the exception its `raise_for_status` raised); `pollResponses`
gives the HTTP responses `fetch_query_result` sees for a task;
`decode` is the outcome of `decode_reaction_proto`; `roleName` is the
external `ReactionRole.Name` lookup. -/
structure World where
  datasets : List Dataset
  submitResp : String → Int → Except String String
  pollResponses : String → List Response
  decode : String → Except String Reaction
  roleName : Int → Option String

/-- End state of the per-dataset `try` block: either it ran to completion
having appended `records`, or it raised after appending `partialRecords`. -/
inductive DatasetOutcome where
  | ok (records : List OutRec)
  | failed (partialRecords : List OutRec) (err : String)
  deriving DecidableEq

/-- Lines 202-209: the per-item loop.  Envelopes whose `proto` field is
missing or empty are skipped (`if not proto_b64: continue`); a decode failure
raises out of the loop, keeping the records already appended. -/
def decodeItems (w : World) (dataset_id : String) :
    List Item → List OutRec → DatasetOutcome
  | [], acc => .ok acc
  | item :: rest, acc =>
    match item.proto with
    | none => decodeItems w dataset_id rest acc
    | some proto_b64 =>
      if proto_b64 = "" then decodeItems w dataset_id rest acc
      else
        match w.decode proto_b64 with
        | .error e => .failed acc e
        | .ok rxn =>
          decodeItems w dataset_id rest (acc ++ [extract_reaction_data w.roleName rxn dataset_id])

/-- The message of the line-78 `TimeoutError`. -/
def timeoutMsg (task_id : String) : String :=
  "Query result for task=" ++ task_id ++ " timed out after " ++ toString REACTION_TIMEOUT_S ++ "s."

/-- The message of the `HTTPError` raised by `raise_for_status` (line 76);
its exact text comes from the external `requests` library. -/
def httpErrorMsg (status : Nat) : String :=
  toString status ++ " Error"

/-- Lines 194-209: the body of the per-dataset `try` block.  Line 195 picks
the effective limit; any raise from submit, poll or decode ends the block in
`failed`. -/
def processDataset (w : World) (per_dataset_limit : Int) (ds : Dataset) : DatasetOutcome :=
  let effective_limit : Int :=
    if per_dataset_limit > 0 then per_dataset_limit else (ds.num_reactions : Int)
  match w.submitResp ds.dataset_id effective_limit with
  | .error e => .failed [] e
  | .ok task_id =>
    match fetch_query_result task_id (w.pollResponses task_id) 0 with
    | .timedOut tid => .failed [] (timeoutMsg tid)
    | .requestError s => .failed [] (httpErrorMsg s)
    | .ready items => decodeItems w ds.dataset_id items []

/-- Line 189: `max_datasets is not None and processed_count >= max_datasets`. -/
def stopCond (max_datasets : Option Int) (processed_count : Nat) : Bool :=
  match max_datasets with
  | none => false
  | some m => decide ((processed_count : Int) ≥ m)

/-- The loop state of `scrape_ord_advanced`: the two locals `all_results` and
`processed_count` (lines 173-174), plus a ghost trace `attempted` recording,
for each dataset whose `try` block was entered, its id and whether the block
completed without raising.  The trace is not a variable of the source; it is
instrumentation used only to state theorems about which datasets are
attempted. -/
structure LoopState where
  all_results : List OutRec
  processed_count : Nat
  attempted : List (String × Bool)
  deriving DecidableEq

/-- Lines 185-218: the dataset loop.  Break when `stopCond` holds; on a clean
`try` block append its records and increment `processed_count` (line 211); on
a raise append the partial records followed by the single
`{dataset_id, error}` record of line 215, leaving `processed_count`
unchanged, and continue with the next dataset. -/
def scrapeLoop (w : World) (max_datasets : Option Int) (per_dataset_limit : Int) :
    List Dataset → LoopState → LoopState
  | [], st => st
  | ds :: rest, st =>
    if stopCond max_datasets st.processed_count then st
    else
      match processDataset w per_dataset_limit ds with
      | .ok records =>
        scrapeLoop w max_datasets per_dataset_limit rest
          ⟨st.all_results ++ records, st.processed_count + 1,
            st.attempted ++ [(ds.dataset_id, true)]⟩
      | .failed partialRecords e =>
        scrapeLoop w max_datasets per_dataset_limit rest
          ⟨st.all_results ++ (partialRecords ++ [OutRec.datasetError ds.dataset_id e]),
            st.processed_count, st.attempted ++ [(ds.dataset_id, false)]⟩

/-- Lines 179-181: keep only the allow-listed datasets when the allow-list is
truthy (non-`None` and non-empty). -/
def filteredDatasets (w : World) (dataset_ids : Option (List String)) : List Dataset :=
  match dataset_ids with
  | none => w.datasets
  | some ids =>
    if ids.isEmpty then w.datasets
    else w.datasets.filter (fun d => ids.contains d.dataset_id)

/-- The final loop state of `scrape_ord_advanced`. -/
def scrapeState (w : World) (max_datasets : Option Int) (per_dataset_limit : Int)
    (dataset_ids : Option (List String)) : LoopState :=
  scrapeLoop w max_datasets per_dataset_limit (filteredDatasets w dataset_ids) ⟨[], 0, []⟩

/-- Lines 166-220: the orchestrator returns `all_results`. -/
def scrape_ord_advanced (w : World) (max_datasets : Option Int)
    (per_dataset_limit : Int) (dataset_ids : Option (List String)) : List OutRec :=
  (scrapeState w max_datasets per_dataset_limit dataset_ids).all_results

/-- The records appended while processing the single dataset `ds`: the loop
run on `[ds]` from the empty state (the per-dataset slice of the output). -/
def processRecords (w : World) (per_dataset_limit : Int) (ds : Dataset) : List OutRec :=
  (scrapeLoop w none per_dataset_limit [ds] ⟨[], 0, []⟩).all_results

/-- Lines 270-272 of `main`: `--max_datasets 0` with a falsy allow-list is
turned into `None` ("all"); every other value is passed through unchanged. -/
def adjust_max_datasets (max_datasets : Int) (ds_ids : Option (List String)) : Option Int :=
  if max_datasets = 0 ∧ (ds_ids.getD []).isEmpty then none else some max_datasets

/-! ### Concrete fixtures used by counterexamples and witnesses -/

/-- A poll attempt answered HTTP 202 (still building), taking one second. -/
def r202 : Response := ⟨202, "", none, 1⟩

/-- A poll attempt answered HTTP 200 with body `[]`. -/
def r200empty : Response := ⟨200, "[]", some [], 1⟩

/-- A poll attempt answered HTTP 200 with a body that is not valid JSON. -/
def r200bad : Response := ⟨200, "oops", none, 1⟩

/-- A poll attempt answered HTTP 304 (a status `raise_for_status` ignores). -/
def r304 : Response := ⟨304, "", none, 1⟩

/-- A poll attempt answered HTTP 404. -/
def r404 : Response := ⟨404, "Not Found", none, 1⟩

def dsA : Dataset := ⟨"d1", 3⟩

def dsB : Dataset := ⟨"d2", 4⟩

/-- A run in which submitting dataset `d1` raises (message `"boom"`) while
dataset `d2` submits fine and polls to an empty ready result. -/
def w1 : World :=
  ⟨[dsA, dsB],
   fun dataset_id _ => if dataset_id = "d1" then .error "boom" else .ok "t2",
   fun _ => [r200empty],
   fun _ => .error "bad proto",
   fun _ => none⟩

/-- A role-name lookup knowing only code 1. -/
def rn0 : Int → Option String := fun code => if code = 1 then some "REACTANT" else none

/-- A reaction with one component (identifier `"CCO"`, role 1) under the
input-group name `"Pd_ligand_1"`, and no outcomes. -/
def rxnC5 : Reaction := ⟨⟨"rx5"⟩, [("Pd_ligand_1", ⟨[⟨[⟨"CCO"⟩], 1⟩]⟩)], []⟩

/-- A reaction with no inputs and no outcomes. -/
def rxnNoOutcome : Reaction := ⟨⟨"rx0"⟩, [], []⟩

/-- A reaction whose single component has only an empty identifier value. -/
def rxnEmptyIdent : Reaction := ⟨⟨"rx7"⟩, [("mystery", ⟨[⟨[⟨""⟩], 1⟩]⟩)], []⟩

/-- The initial `extracted_roles` dict of line 107. -/
def initRoles : RolesMap := CORE_CATEGORIES.map (fun k => (k, []))

/-! ### Helper lemmas -/

/-- The success flag of an extracted record is exactly the line 111-113
computation. -/
theorem successFlag_extract (rn : Int → Option String) (rxn : Reaction) (ds : String) :
    (extract_reaction_data rn rxn ds).successFlag =
      some (match rxn.outcomes with
            | [] => false
            | o :: _ => !o.reaction_product.isEmpty) := rfl

/-- Appending a value at a key makes the key's list end with that value. -/
theorem lookupCat_appendAt_self (k : String) (v : CompData) :
    ∀ m : RolesMap, lookupCat (appendAt m k v) k = some ((lookupCat m k).getD [] ++ [v])
  | [] => by simp [appendAt, lookupCat]
  | (k', vs) :: rest => by
    by_cases h : k' = k
    · subst h
      simp [appendAt, lookupCat]
    · simp [appendAt, lookupCat, h, lookupCat_appendAt_self k v rest]

/-- Appending never removes a key. -/
theorem hasKey_appendAt (k' : String) (v : CompData) (k : String) :
    ∀ m : RolesMap, hasKey m k = true → hasKey (appendAt m k' v) k = true
  | [], h => by simp [hasKey] at h
  | (a, vs) :: rest, h => by
    by_cases ha : a = k'
    · subst ha
      simpa [appendAt, hasKey] using h
    · simp only [hasKey, Bool.or_eq_true] at h
      rcases h with h | h
      · simp [appendAt, ha, hasKey, h]
      · simp [appendAt, ha, hasKey, hasKey_appendAt k' v k rest h]

/-- Classification never removes a key. -/
theorem hasKey_classifyComponent (m : RolesMap) (nk : String) (cd : CompData)
    (k : String) (h : hasKey m k = true) :
    hasKey (classifyComponent m nk cd) k = true := by
  unfold classifyComponent
  cases CORE_CATEGORIES.find? (fun core_key => containsSubstr nk core_key) with
  | none => exact hasKey_appendAt nk cd k m h
  | some ck => exact hasKey_appendAt ck cd k m h

/-- The per-component step never removes a key. -/
theorem hasKey_processComponent (rn : Int → Option String) (nk : String)
    (m : RolesMap) (c : Component) (k : String) (h : hasKey m k = true) :
    hasKey (processComponent rn nk m c) k = true := by
  unfold processComponent
  by_cases he : extract_identifiers c = ""
  · simpa [he] using h
  · simpa [he] using hasKey_classifyComponent m nk _ k h

/-- A fold preserves any invariant its step preserves. -/
theorem foldl_preserves {α β : Type} {P : β → Prop} (f : β → α → β)
    (hf : ∀ b a, P b → P (f b a)) : ∀ (l : List α) (b : β), P b → P (l.foldl f b)
  | [], _, h => h
  | a :: l, b, h => foldl_preserves f hf l (f b a) (hf b a h)

/-- The per-input step never removes a key. -/
theorem hasKey_processInput (rn : Int → Option String) (m : RolesMap)
    (p : String × ReactionInput) (k : String) (h : hasKey m k = true) :
    hasKey (processInput rn m p) k = true :=
  foldl_preserves (P := fun m => hasKey m k = true) _
    (fun m c hm => hasKey_processComponent rn (normalizeKey p.1) m c k hm)
    p.2.components m h

/-- Skipping the identifier-less components before folding changes nothing:
the per-component step already skips them. -/
theorem foldl_processComponent_filter (rn : Int → Option String) (nk : String) :
    ∀ (cs : List Component) (m : RolesMap),
      (cs.filter (fun c => !(extract_identifiers c == ""))).foldl (processComponent rn nk) m =
        cs.foldl (processComponent rn nk) m
  | [], _ => rfl
  | c :: cs, m => by
    by_cases h : extract_identifiers c = ""
    · have hk : (!(extract_identifiers c == "")) = false := by simp [h]
      rw [List.filter_cons_of_neg (by simp [hk]), List.foldl_cons,
        show processComponent rn nk m c = m by simp [processComponent, h]]
      exact foldl_processComponent_filter rn nk cs m
    · have hk : (!(extract_identifiers c == "")) = true := by simp [h]
      rw [List.filter_cons_of_pos (by simp [hk]), List.foldl_cons, List.foldl_cons]
      exact foldl_processComponent_filter rn nk cs (processComponent rn nk m c)

/-- Folds with pointwise-equal steps agree. -/
theorem foldl_congr_fn {α β : Type} (f g : β → α → β) (h : ∀ b a, f b a = g b a) :
    ∀ (l : List α) (b : β), l.foldl f b = l.foldl g b
  | [], _ => rfl
  | a :: l, b => by
    rw [List.foldl_cons, List.foldl_cons, h]
    exact foldl_congr_fn f g h l (g b a)

/-! ### Claims C3, C9 (poller) -/

/-- C3 (counterexample): the first poll response has status 304 — not 200,
not 202, not a 400, and non-2xx — yet the poller does not immediately fail
with a request error at that status: it keeps polling and only fails on the
second response's 404. -/
theorem c3_counterexample :
    fetch_query_result "t" [r304, r404] 0 = .requestError 404 ∧
    fetch_query_result "t" [r304, r404] 0 ≠ .requestError 304 := by decide

/-- C3 (amended): during polling, a response whose status lies in 400-599 and
is not a 400 with "not ready" in its body immediately fails the poller with a
request error at that status; a status below 400 other than 200 and 202 does
not fail — the loop simply polls again (the `raise_for_status` of line 76
only raises for 4xx/5xx). -/
theorem c3_amended_thm :
    (∀ (task_id : String) (r : Response) (rest : List Response) (elapsed : Nat),
      elapsed < REACTION_TIMEOUT_S → 400 ≤ r.status → r.status < 600 →
      ¬(r.status = 400 ∧ containsNotReady r.text = true) →
      fetch_query_result task_id (r :: rest) elapsed = .requestError r.status) ∧
    (∀ (task_id : String) (r : Response) (rest : List Response) (elapsed : Nat),
      elapsed < REACTION_TIMEOUT_S → r.status ≠ 200 → r.status ≠ 202 → r.status < 400 →
      fetch_query_result task_id (r :: rest) elapsed =
        fetch_query_result task_id rest (elapsed + r.duration)) := by
  constructor
  · intro task_id r rest elapsed hel h4 h6 hnr
    have h200 : ¬(r.status = 200) := by omega
    have h202 : ¬(r.status = 202) := by omega
    simp [fetch_query_result, h200, h202, hnr, Nat.not_le.mpr hel, h4, h6]
  · intro task_id r rest elapsed hel h200 h202 hlt
    have hrange : ¬(400 ≤ r.status ∧ r.status < 600) := fun h => by omega
    have hnr : ¬(r.status = 400 ∧ containsNotReady r.text = true) := fun h => by omega
    simp [fetch_query_result, h200, h202, hnr, Nat.not_le.mpr hel, hrange]

/-- C3 witness: a 404 on the first attempt fails immediately. -/
theorem c3_amended_witness :
    7 < REACTION_TIMEOUT_S ∧ 400 ≤ r404.status ∧ r404.status < 600 ∧
    ¬(r404.status = 400 ∧ containsNotReady r404.text = true) ∧
    fetch_query_result "tw" [r404] 7 = .requestError r404.status :=
  ⟨by decide, by decide, by decide, by decide,
    c3_amended_thm.1 "tw" r404 [] 7 (by decide) (by decide) (by decide) (by decide)⟩

/-- C9: inside the poll window, an HTTP 200 answer makes the poller return
the parsed JSON array body, with a malformed body read as the empty list;
in particular two 202s followed by a 200 with body `[]` return the empty
list with no error, and a 200 with an unparseable body also returns `[]`. -/
theorem c9_ready_on_200 :
    (∀ (task_id : String) (r : Response) (rest : List Response) (elapsed : Nat),
      elapsed < REACTION_TIMEOUT_S → r.status = 200 →
      fetch_query_result task_id (r :: rest) elapsed = .ready (r.json.getD [])) ∧
    fetch_query_result "t" [r202, r202, r200empty] 0 = .ready [] ∧
    fetch_query_result "t" [r200bad] 0 = .ready [] := by
  refine ⟨?_, by decide, by decide⟩
  intro task_id r rest elapsed hel h200
  simp [fetch_query_result, h200, Nat.not_le.mpr hel]

/-- C9 witness: a 200 with a parseable singleton array returns that array. -/
theorem c9_ready_on_200_witness :
    7 < REACTION_TIMEOUT_S ∧ (Response.mk 200 "x" (some [⟨some "AA"⟩]) 3).status = 200 ∧
    fetch_query_result "tw" [⟨200, "x", some [⟨some "AA"⟩], 3⟩] 7 = .ready [⟨some "AA"⟩] :=
  ⟨by decide, rfl, c9_ready_on_200.1 "tw" ⟨200, "x", some [⟨some "AA"⟩], 3⟩ [] 7 (by decide) rfl⟩

/-! ### Claims C4, C5, C7, C8 (extractor) -/

/-- C4: the extractor's success flag is true iff the record has at least one
outcome and that first outcome has a non-empty successful-reaction-product
collection; a record with zero outcomes yields `success = false`. -/
theorem c4_success_flag (rn : Int → Option String) (rxn : Reaction) (ds : String) :
    ((extract_reaction_data rn rxn ds).successFlag = some true ↔
      ∃ o tl, rxn.outcomes = o :: tl ∧ o.reaction_product ≠ []) ∧
    (rxn.outcomes = [] → (extract_reaction_data rn rxn ds).successFlag = some false) := by
  rw [successFlag_extract]
  cases houts : rxn.outcomes with
  | nil =>
    refine ⟨?_, fun _ => rfl⟩
    simp
  | cons o tl =>
    constructor
    · constructor
      · intro h
        refine ⟨o, tl, rfl, ?_⟩
        simpa [List.isEmpty_iff] using h
      · rintro ⟨o', tl', heq, hne⟩
        obtain ⟨rfl, rfl⟩ : o' = o ∧ tl' = tl := by
          constructor <;> injection heq <;> simp_all
        simp [List.isEmpty_iff, hne]
    · intro hcontra
      exact absurd hcontra (by simp)

/-- C4 witness: a reaction with zero outcomes has `success = false`. -/
theorem c4_success_flag_witness :
    rxnNoOutcome.outcomes = [] ∧
    (extract_reaction_data rn0 rxnNoOutcome "d").successFlag = some false :=
  ⟨rfl, (c4_success_flag rn0 rxnNoOutcome "d").2 rfl⟩

/-- C5: a kept component is filed under the first core category (in the fixed
category list) whose name is a substring of the normalized group name, and
only when no core category matches is it filed under the dynamic category
keyed by the normalized group name itself; in particular a component under
input-group name "Pd_ligand_1" lands under "ligand", and no "pd ligand 1"
key is created. -/
theorem c5_first_matching_core_category :
    (∀ (m : RolesMap) (nk : String) (cd : CompData) (ck : String),
      CORE_CATEGORIES.find? (fun k => containsSubstr nk k) = some ck →
      lookupCat (classifyComponent m nk cd) ck = some ((lookupCat m ck).getD [] ++ [cd])) ∧
    (∀ (m : RolesMap) (nk : String) (cd : CompData),
      (∀ k ∈ CORE_CATEGORIES, containsSubstr nk k = false) →
      lookupCat (classifyComponent m nk cd) nk = some ((lookupCat m nk).getD [] ++ [cd])) ∧
    (lookupCat (extract_reaction_data rn0 rxnC5 "ds").componentsD "ligand" =
       some [⟨"CCO", "REACTANT"⟩] ∧
     lookupCat (extract_reaction_data rn0 rxnC5 "ds").componentsD "pd ligand 1" = none) := by
  refine ⟨?_, ?_, by decide, by decide⟩
  · intro m nk cd ck hfind
    unfold classifyComponent
    rw [hfind]
    exact lookupCat_appendAt_self ck cd m
  · intro m nk cd hall
    have hfind : CORE_CATEGORIES.find? (fun k => containsSubstr nk k) = none :=
      List.find?_eq_none.mpr (fun k hk => by simp [hall k hk])
    unfold classifyComponent
    rw [hfind]
    exact lookupCat_appendAt_self nk cd m

/-- C5 witness: the "Pd_ligand_1" scenario instantiates the first-match rule. -/
theorem c5_first_matching_core_category_witness :
    CORE_CATEGORIES.find? (fun k => containsSubstr "pd ligand 1" k) = some "ligand" ∧
    lookupCat (classifyComponent initRoles "pd ligand 1" ⟨"CCO", "REACTANT"⟩) "ligand" =
      some ((lookupCat initRoles "ligand").getD [] ++ [⟨"CCO", "REACTANT"⟩]) :=
  ⟨by decide,
    c5_first_matching_core_category.1 initRoles "pd ligand 1" ⟨"CCO", "REACTANT"⟩ "ligand"
      (by decide)⟩

/-- A reaction with the identifier-less components removed from every input
group. -/
def pruneReaction (rxn : Reaction) : Reaction :=
  ⟨rxn.reaction_id,
    rxn.inputs.map (fun p => (p.1, ⟨p.2.components.filter (fun c => !(extract_identifiers c == ""))⟩)),
    rxn.outcomes⟩

/-- C7: a component whose concatenated identifier text is empty is dropped
entirely — deleting all such components beforehand yields the identical
extracted record — and concretely a reaction whose only component has no
identifier text extracts to the pristine six-key map with no dynamic key. -/
theorem c7_empty_identifier_components_dropped (rn : Int → Option String)
    (rxn : Reaction) (ds : String) :
    extract_reaction_data rn (pruneReaction rxn) ds = extract_reaction_data rn rxn ds ∧
    extract_reaction_data rn0 rxnEmptyIdent "ds" = .extracted "ds" "rx7" initRoles false := by
  refine ⟨?_, by decide⟩
  unfold extract_reaction_data pruneReaction
  simp only [List.foldl_map]
  congr 1
  refine foldl_congr_fn _ _ (fun m p => ?_) rxn.inputs _
  show processInput rn m (p.1, ⟨p.2.components.filter (fun c => !(extract_identifiers c == ""))⟩) =
    processInput rn m p
  unfold processInput
  exact foldl_processComponent_filter rn (normalizeKey p.1) p.2.components m

/-- C8: the components map of every successfully extracted record contains
all six core category keys. -/
theorem c8_core_keys_present (rn : Int → Option String) (rxn : Reaction) (ds : String) :
    CORE_CATEGORIES.all
      (fun k => hasKey (extract_reaction_data rn rxn ds).componentsD k) = true := by
  rw [List.all_eq_true]
  intro k hk
  have hinit : ∀ k ∈ CORE_CATEGORIES, hasKey initRoles k = true := by decide
  exact foldl_preserves (P := fun m => hasKey m k = true) _
    (fun m p hm => hasKey_processInput rn m p k hm)
    rxn.inputs initRoles (hinit k hk)

/-! ### Orchestrator lemmas -/

/-- The loop only ever appends to `all_results`. -/
theorem scrapeLoop_extends (w : World) (md : Option Int) (lim : Int) :
    ∀ (dss : List Dataset) (st : LoopState),
      ∃ tl, (scrapeLoop w md lim dss st).all_results = st.all_results ++ tl
  | [], st => ⟨[], by simp [scrapeLoop]⟩
  | ds :: rest, st => by
    by_cases hstop : stopCond md st.processed_count = true
    · exact ⟨[], by simp [scrapeLoop, hstop]⟩
    · cases hpd : processDataset w lim ds with
      | ok records =>
        obtain ⟨tl, htl⟩ := scrapeLoop_extends w md lim rest
          ⟨st.all_results ++ records, st.processed_count + 1,
            st.attempted ++ [(ds.dataset_id, true)]⟩
        exact ⟨records ++ tl, by simp [scrapeLoop, hstop, hpd, htl]⟩
      | failed partialRecords e =>
        obtain ⟨tl, htl⟩ := scrapeLoop_extends w md lim rest
          ⟨st.all_results ++ (partialRecords ++ [OutRec.datasetError ds.dataset_id e]),
            st.processed_count, st.attempted ++ [(ds.dataset_id, false)]⟩
        exact ⟨partialRecords ++ [OutRec.datasetError ds.dataset_id e] ++ tl,
          by simp [scrapeLoop, hstop, hpd, htl]⟩

/-- The counter `processed_count` counts exactly the attempts flagged successful. -/
theorem scrapeLoop_count_invariant (w : World) (md : Option Int) (lim : Int) :
    ∀ (dss : List Dataset) (st : LoopState),
      (st.attempted.filter (fun a => a.2)).length = st.processed_count →
      ((scrapeLoop w md lim dss st).attempted.filter (fun a => a.2)).length =
        (scrapeLoop w md lim dss st).processed_count
  | [], st, h => by simpa [scrapeLoop] using h
  | ds :: rest, st, h => by
    by_cases hstop : stopCond md st.processed_count = true
    · simpa [scrapeLoop, hstop] using h
    · cases hpd : processDataset w lim ds with
      | ok records =>
        rw [show scrapeLoop w md lim (ds :: rest) st =
          scrapeLoop w md lim rest
            ⟨st.all_results ++ records, st.processed_count + 1,
              st.attempted ++ [(ds.dataset_id, true)]⟩ by simp [scrapeLoop, hstop, hpd]]
        exact scrapeLoop_count_invariant w md lim rest _ (by simp [List.filter_append, h])
      | failed partialRecords e =>
        rw [show scrapeLoop w md lim (ds :: rest) st =
          scrapeLoop w md lim rest
            ⟨st.all_results ++ (partialRecords ++ [OutRec.datasetError ds.dataset_id e]),
              st.processed_count, st.attempted ++ [(ds.dataset_id, false)]⟩ by
            simp [scrapeLoop, hstop, hpd]]
        exact scrapeLoop_count_invariant w md lim rest _ (by simp [List.filter_append, h])

/-- With `max_datasets = some m` the counter never passes `m`. -/
theorem scrapeLoop_processed_le (w : World) (m : Int) (lim : Int) :
    ∀ (dss : List Dataset) (st : LoopState),
      st.processed_count ≤ m.toNat →
      (scrapeLoop w (some m) lim dss st).processed_count ≤ m.toNat
  | [], _, h => by simpa [scrapeLoop] using h
  | ds :: rest, st, h => by
    by_cases hstop : stopCond (some m) st.processed_count = true
    · simpa [scrapeLoop, hstop] using h
    · have hlt : (st.processed_count : Int) < m := by
        simpa [stopCond, not_le] using hstop
      cases hpd : processDataset w lim ds with
      | ok records =>
        rw [show scrapeLoop w (some m) lim (ds :: rest) st =
          scrapeLoop w (some m) lim rest
            ⟨st.all_results ++ records, st.processed_count + 1,
              st.attempted ++ [(ds.dataset_id, true)]⟩ by simp [scrapeLoop, hstop, hpd]]
        exact scrapeLoop_processed_le w m lim rest _ (by simp only; omega)
      | failed partialRecords e =>
        rw [show scrapeLoop w (some m) lim (ds :: rest) st =
          scrapeLoop w (some m) lim rest
            ⟨st.all_results ++ (partialRecords ++ [OutRec.datasetError ds.dataset_id e]),
              st.processed_count, st.attempted ++ [(ds.dataset_id, false)]⟩ by
            simp [scrapeLoop, hstop, hpd]]
        exact scrapeLoop_processed_le w m lim rest _ h

/-- With `max_datasets = None` every dataset in the list is attempted, in
order. -/
theorem scrapeLoop_none_attempts_all (w : World) (lim : Int) :
    ∀ (dss : List Dataset) (st : LoopState),
      (scrapeLoop w none lim dss st).attempted.map Prod.fst =
        st.attempted.map Prod.fst ++ dss.map Dataset.dataset_id
  | [], st => by simp [scrapeLoop]
  | ds :: rest, st => by
    cases hpd : processDataset w lim ds with
    | ok records =>
      rw [show scrapeLoop w none lim (ds :: rest) st =
        scrapeLoop w none lim rest
          ⟨st.all_results ++ records, st.processed_count + 1,
            st.attempted ++ [(ds.dataset_id, true)]⟩ by simp [scrapeLoop, stopCond, hpd]]
      simp [scrapeLoop_none_attempts_all w lim rest]
    | failed partialRecords e =>
      rw [show scrapeLoop w none lim (ds :: rest) st =
        scrapeLoop w none lim rest
          ⟨st.all_results ++ (partialRecords ++ [OutRec.datasetError ds.dataset_id e]),
            st.processed_count, st.attempted ++ [(ds.dataset_id, false)]⟩ by
          simp [scrapeLoop, stopCond, hpd]]
      simp [scrapeLoop_none_attempts_all w lim rest]

/-- All records a dataset outcome contributes to `all_results` (the decoded
records, and on failure also the single dataset-level error record). -/
def DatasetOutcome.allAppended (o : DatasetOutcome) (dataset_id : String) : List OutRec :=
  match o with
  | .ok records => records
  | .failed partialRecords e => partialRecords ++ [OutRec.datasetError dataset_id e]

/-- The per-dataset slice of the output is exactly `allAppended`. -/
theorem processRecords_eq (w : World) (lim : Int) (ds : Dataset) :
    processRecords w lim ds = (processDataset w lim ds).allAppended ds.dataset_id := by
  unfold processRecords
  cases hpd : processDataset w lim ds with
  | ok records => simp [scrapeLoop, stopCond, hpd, DatasetOutcome.allAppended]
  | failed partialRecords e => simp [scrapeLoop, stopCond, hpd, DatasetOutcome.allAppended]

/-- Every record the item loop appends carries the dataset id it was called
with. -/
theorem decodeItems_datasetId (w : World) (dsid : String) :
    ∀ (items : List Item) (acc : List OutRec),
      (∀ r ∈ acc, r.datasetIdOf = dsid) →
      ∀ r ∈ (decodeItems w dsid items acc).allAppended dsid, r.datasetIdOf = dsid
  | [], acc, hacc, r, hr =>
    hacc r (by simpa [decodeItems, DatasetOutcome.allAppended] using hr)
  | item :: rest, acc, hacc, r, hr => by
    cases hp : item.proto with
    | none =>
      exact decodeItems_datasetId w dsid rest acc hacc r
        (by simpa [decodeItems, hp] using hr)
    | some pb =>
      by_cases hpb : pb = ""
      · exact decodeItems_datasetId w dsid rest acc hacc r
          (by simpa [decodeItems, hp, hpb] using hr)
      · cases hd : w.decode pb with
        | error e =>
          rw [show decodeItems w dsid (item :: rest) acc = .failed acc e by
            simp [decodeItems, hp, hpb, hd]] at hr
          simp [DatasetOutcome.allAppended] at hr
          rcases hr with hr | hr
          · exact hacc r hr
          · subst hr; rfl
        | ok rxn =>
          refine decodeItems_datasetId w dsid rest
            (acc ++ [extract_reaction_data w.roleName rxn dsid]) ?_ r
            (by simpa [decodeItems, hp, hpb, hd] using hr)
          intro r' hr'
          rcases List.mem_append.mp hr' with h | h
          · exact hacc r' h
          · simp at h
            subst h
            rfl

/-- Every record processing a dataset appends carries that dataset's id. -/
theorem processDataset_datasetId (w : World) (lim : Int) (ds : Dataset) :
    ∀ r ∈ (processDataset w lim ds).allAppended ds.dataset_id,
      r.datasetIdOf = ds.dataset_id := by
  intro r hr
  simp only [processDataset] at hr
  rcases hsub : w.submitResp ds.dataset_id
      (if lim > 0 then lim else (ds.num_reactions : Int)) with e | task_id
  · simp only [hsub] at hr
    simp [DatasetOutcome.allAppended] at hr
    subst hr; rfl
  · simp only [hsub] at hr
    rcases hpoll : fetch_query_result task_id (w.pollResponses task_id) 0 with items | tid | s
    · simp only [hpoll] at hr
      exact decodeItems_datasetId w ds.dataset_id items [] (by simp) r hr
    · simp only [hpoll] at hr
      simp [DatasetOutcome.allAppended] at hr
      subst hr; rfl
    · simp only [hpoll] at hr
      simp [DatasetOutcome.allAppended] at hr
      subst hr; rfl

/-! ### Claims C1, C2, C6, C10 (orchestrator) -/

/-- C1 (counterexample): two datasets, `max_datasets = 1` (set and positive),
the first dataset's submit raises — the run attempts 2 datasets, exceeding
`max_datasets`. -/
theorem c1_counterexample :
    ¬((scrapeState w1 (some 1) 5 none).attempted.length ≤ 1) := by decide

/-- C1 (amended): the loop stops once `max_datasets` datasets have completed
successfully: the number of successfully processed datasets never exceeds a
set, nonnegative `max_datasets` (though more datasets may be attempted when
some fail); when `max_datasets` is unset (`None`) every filtered dataset is
attempted in list order; and the CLI turns `max_datasets = 0` with no
allow-list into `None` ("all"). -/
theorem c1_amended :
    (∀ (w : World) (lim : Int) (ids : Option (List String)) (m : Nat),
      ((scrapeState w (some (m : Int)) lim ids).attempted.filter (fun a => a.2)).length ≤ m) ∧
    (∀ (w : World) (lim : Int) (ids : Option (List String)),
      (scrapeState w none lim ids).attempted.map Prod.fst =
        (filteredDatasets w ids).map Dataset.dataset_id) ∧
    adjust_max_datasets 0 none = none := by
  refine ⟨?_, ?_, by decide⟩
  · intro w lim ids m
    have hinv := scrapeLoop_count_invariant w (some (m : Int)) lim
      (filteredDatasets w ids) ⟨[], 0, []⟩ (by simp)
    have hle := scrapeLoop_processed_le w (m : Int) lim
      (filteredDatasets w ids) ⟨[], 0, []⟩ (by simp)
    show ((scrapeLoop w (some (m : Int)) lim (filteredDatasets w ids)
      ⟨[], 0, []⟩).attempted.filter (fun a => a.2)).length ≤ m
    omega
  · intro w lim ids
    simpa using scrapeLoop_none_attempts_all w lim (filteredDatasets w ids) ⟨[], 0, []⟩

/-- C2 (counterexample): a run whose only processed dataset fails at submit
appends the line-215 record `{dataset_id: "d1", error: "boom"}`, which
carries no `reaction_id`. -/
theorem c2_counterexample :
    scrape_ord_advanced w1 (some 1) 5 none = [OutRec.datasetError "d1" "boom"] ∧
    OutRec.reactionId? (OutRec.datasetError "d1" "boom") = none := by decide

/-- C2 (amended): records produced by the extractor — the success shape and
the extraction-failure shape — carry their source `dataset_id` and
`reaction_id`; the dataset-level error record of line 215 carries only the
`dataset_id` (no `reaction_id`); and every record appended while processing a
dataset carries that dataset's id. -/
theorem c2_amended :
    (∀ (rn : Int → Option String) (rxn : Reaction) (ds : String),
      (extract_reaction_data rn rxn ds).datasetIdOf = ds ∧
      (extract_reaction_data rn rxn ds).reactionId? = some rxn.reaction_id.value) ∧
    (∀ (rxn : Reaction) (ds e : String),
      (extractFailureRecord rxn ds e).datasetIdOf = ds ∧
      (extractFailureRecord rxn ds e).reactionId? = some rxn.reaction_id.value) ∧
    (∀ (w : World) (lim : Int) (ds : Dataset) (r : OutRec),
      r ∈ processRecords w lim ds → r.datasetIdOf = ds.dataset_id) := by
  refine ⟨fun rn rxn ds => ⟨rfl, rfl⟩, fun rxn ds e => ⟨rfl, rfl⟩, ?_⟩
  intro w lim ds r hr
  rw [processRecords_eq] at hr
  exact processDataset_datasetId w lim ds r hr

/-- C2 witness: the dataset-level error record of the failing dataset carries
that dataset's id. -/
theorem c2_amended_witness :
    OutRec.datasetError "d1" "boom" ∈ processRecords w1 5 dsA ∧
    OutRec.datasetIdOf (OutRec.datasetError "d1" "boom") = dsA.dataset_id :=
  ⟨by decide, c2_amended.2.2 w1 5 dsA (OutRec.datasetError "d1" "boom") (by decide)⟩

/-- C6: when the try block of a dataset raises, the loop appends the records
decoded so far followed by exactly one `{dataset_id, error}` record and
continues with the remaining datasets, with `processed_count` unchanged;
and the loop never discards previously accumulated results. -/
theorem c6_dataset_failure_isolated (w : World) (md : Option Int) (lim : Int)
    (ds : Dataset) (rest : List Dataset) (st : LoopState)
    (partialRecs : List OutRec) (e : String)
    (hstop : stopCond md st.processed_count = false)
    (hfail : processDataset w lim ds = .failed partialRecs e) :
    scrapeLoop w md lim (ds :: rest) st =
      scrapeLoop w md lim rest
        ⟨st.all_results ++ (partialRecs ++ [OutRec.datasetError ds.dataset_id e]),
          st.processed_count, st.attempted ++ [(ds.dataset_id, false)]⟩ ∧
    ∃ tl, (scrapeLoop w md lim (ds :: rest) st).all_results = st.all_results ++ tl :=
  ⟨by simp [scrapeLoop, hstop, hfail], scrapeLoop_extends w md lim (ds :: rest) st⟩

/-- C6 witness: the failing dataset `d1` is followed by processing of `d2`. -/
theorem c6_dataset_failure_isolated_witness :
    stopCond (some 2) 0 = false ∧
    processDataset w1 5 dsA = DatasetOutcome.failed [] "boom" ∧
    (scrapeLoop w1 (some 2) 5 [dsA, dsB] ⟨[], 0, []⟩ =
       scrapeLoop w1 (some 2) 5 [dsB] ⟨[OutRec.datasetError "d1" "boom"], 0, [("d1", false)]⟩ ∧
     ∃ tl, (scrapeLoop w1 (some 2) 5 [dsA, dsB] ⟨[], 0, []⟩).all_results = [] ++ tl) :=
  ⟨rfl, by decide,
    c6_dataset_failure_isolated w1 (some 2) 5 dsA [dsB] ⟨[], 0, []⟩ [] "boom" rfl (by decide)⟩

/-- C10: `processed_count` counts exactly the datasets whose try block
completed without raising, so datasets that fail do not count toward the
stopping condition — concretely, with `max_datasets = 1` and a failing first
dataset, 2 datasets are attempted while the counter ends at 1. -/
theorem c10_processed_counts_only_successes :
    (∀ (w : World) (md : Option Int) (lim : Int) (ids : Option (List String)),
      (scrapeState w md lim ids).processed_count =
        ((scrapeState w md lim ids).attempted.filter (fun a => a.2)).length) ∧
    (scrapeState w1 (some 1) 5 none).attempted.length = 2 ∧
    (scrapeState w1 (some 1) 5 none).processed_count = 1 := by
  refine ⟨?_, by decide, by decide⟩
  intro w md lim ids
  exact (scrapeLoop_count_invariant w md lim (filteredDatasets w ids) ⟨[], 0, []⟩ (by simp)).symm

end OrdScraper
